import Mathlib

/-!
Verification development for the incident resource-prediction engine
(`backend/initial_prediction_model/initial_resource_model.py` and
`backend/initial_resource_model.py`).

The Python code is shallowly embedded:
* Python floats are modelled as rationals (`ℚ`); all arithmetic in the
  engine is +, -, *, /, min, max, ceiling and rounding, which are exact
  on rationals.  The single irrational operation, `math.sqrt` inside
  `euclidean_dist`, is modelled as an explicit function parameter
  `sqrtQ : ℚ → ℚ`; theorems that need it assume only that it maps
  non-negative inputs to non-negative outputs, which the real square
  root satisfies.
* A Python dict used as a record (`row`, `query`, the model payload) is
  modelled as a function `String → Option PyVal`; `dict.get(k, d)`
  becomes `(m k).getD d`, and building a dict by assignment becomes
  pointwise functional update.
* `np.argsort` is called with its default `kind='quicksort'`, for which
  NumPy documents only that the result is a permutation of
  `[0, ..., n-1]` arranging the values in ascending order; the order of
  equal values is unspecified (quicksort is not stable).  That
  documented contract is captured by `ArgsortSpec`.  The executable
  model `argsort` is one admissible refinement of it — the stable one,
  ties broken by original index; theorems about `knn_predict` proved
  here do not depend on the tie order.
* Raising an exception is modelled by returning `Option.none`.
-/

/-- A raw Python value as stored in an incident record: `None`, a string,
a number (int or float, both exact here), or a boolean. -/
inductive PyVal where
  | none : PyVal
  | str : String → PyVal
  | rat : ℚ → PyVal
  | bool : Bool → PyVal
deriving DecidableEq

/-- An incident record: a Python dict from field names to raw values.
`Option.none` means the key is absent from the dict. -/
def Incident : Type := String → Option PyVal

/-- A categorical vocabulary: Python `Dict[str, List[str]]`. -/
def Vocab : Type := String → Option (List String)

/-- Python whitespace characters stripped by `str.strip()` (the ones
that can occur in this data). -/
def isPySpace (c : Char) : Bool := c == ' ' || c == '\t' || c == '\n' || c == '\r'

/-- Python `str.strip()`: remove leading and trailing whitespace. -/
def pyStrip (s : String) : String :=
  ⟨((s.data.dropWhile isPySpace).reverse.dropWhile isPySpace).reverse⟩

/-- Python `str.lower()`. -/
def pyLower (s : String) : String := ⟨s.data.map Char.toLower⟩

/-- Decimal representation of a natural number digit list value. -/
def digitsVal (l : List Char) : ℕ :=
  l.foldl (fun n c => 10 * n + (c.toNat - ('0').toNat)) 0

/-- Models Python `float(s)` on a string: optional sign, integer part,
optional fractional part (plain decimal notation, surrounding whitespace
allowed).  Returns `Option.none` where Python raises `ValueError`. -/
def strToRat? (s : String) : Option ℚ :=
  let l := (pyStrip s).data
  let signAndRest : ℚ × List Char :=
    match l with
    | '-' :: rest => (-1, rest)
    | '+' :: rest => (1, rest)
    | _ => (1, l)
  let sign := signAndRest.1
  let l' := signAndRest.2
  let intPart := l'.takeWhile Char.isDigit
  let rest := l'.dropWhile Char.isDigit
  match rest with
  | [] =>
      if intPart.isEmpty then Option.none
      else Option.some (sign * (digitsVal intPart : ℚ))
  | '.' :: frac =>
      if frac.all Char.isDigit ∧ ¬(intPart.isEmpty ∧ frac.isEmpty) then
        Option.some (sign * ((digitsVal intPart : ℚ) +
          (digitsVal frac : ℚ) / (10 : ℚ) ^ frac.length))
      else Option.none
  | _ => Option.none

/-- A plausible decimal rendering for Python `str()` of a float; no
claim depends on its exact form, only that it is a fixed function. -/
def pyReprRat (q : ℚ) : String :=
  if q.den = 1 then toString q.num ++ ".0"
  else toString q.num ++ "/" ++ toString q.den

/-- Python `str(v)` on a raw value. -/
def pyStr : PyVal → String
  | PyVal.none => "None"
  | PyVal.str s => s
  | PyVal.rat q => pyReprRat q
  | PyVal.bool b => if b then "True" else "False"

/-- Python truthiness of a raw value (`if not value: ...`). -/
def pyFalsy : PyVal → Bool
  | PyVal.none => true
  | PyVal.str s => s = ""
  | PyVal.rat q => q = 0
  | PyVal.bool b => ¬b

/-- `incident.get(field)` — absent keys default to `None`. -/
def pyGet (inc : Incident) (field : String) : PyVal :=
  (inc field).getD PyVal.none

/-- `str(incident.get(field, ""))`. -/
def pyGetStr (inc : Incident) (field : String) : String :=
  pyStr ((inc field).getD (PyVal.str ""))

/-- `parse_float` from the source: `0.0` for `None`/`""`, the numeric
value for numbers and booleans and numeric strings, `0.0` on parse
failure.  Never fails. -/
def parse_float : PyVal → ℚ
  | PyVal.none => 0
  | PyVal.str s => if s = "" then 0 else (strToRat? s).getD 0
  | PyVal.rat q => q
  | PyVal.bool b => if b then 1 else 0

/-- `parse_bool` from the source.  Note the Python quirk that
`1.0 in (True, False)` holds because `1.0 == True`, so any numeric value
equal to 1 hits the first branch; any other number falls through the
string-set tests (its `str()` is never in either set) to `0.0`. -/
def parse_bool : PyVal → ℚ
  | PyVal.bool b => if b then 1 else 0
  | PyVal.none => 0
  | PyVal.rat q => if q = 1 then 1 else 0
  | PyVal.str s =>
      let text := pyLower (pyStrip s)
      if text = "1" ∨ text = "true" ∨ text = "yes" ∨ text = "y" then 1 else 0

/-- Models `datetime.fromisoformat` restricted to the shapes occurring
in the data: `YYYY-MM-DD` or `YYYY-MM-DD?hh:mm:ss` (any one-character
separator).  Returns only the (hour, month) pair, which is all the
engine consumes.  `Option.none` where Python raises `ValueError`. -/
def isoParse (l : List Char) : Option (ℕ × ℕ) :=
  if l.length = 10 ∨ l.length = 19 then
    let d4 := l.take 4
    let m2 := (l.drop 5).take 2
    let d2 := (l.drop 8).take 2
    let okDate := d4.all Char.isDigit && (l.getD 4 ' ' == '-') &&
      m2.all Char.isDigit && (l.getD 7 ' ' == '-') && d2.all Char.isDigit &&
      decide (1 ≤ digitsVal m2) && decide (digitsVal m2 ≤ 12) &&
      decide (1 ≤ digitsVal d2) && decide (digitsVal d2 ≤ 31)
    if l.length = 10 then
      if okDate then Option.some (0, digitsVal m2) else Option.none
    else
      let hh := (l.drop 11).take 2
      let mm := (l.drop 14).take 2
      let ss := (l.drop 17).take 2
      let okTime := hh.all Char.isDigit && (l.getD 13 ' ' == ':') &&
        mm.all Char.isDigit && (l.getD 16 ' ' == ':') && ss.all Char.isDigit &&
        decide (digitsVal hh ≤ 23) && decide (digitsVal mm ≤ 59) &&
        decide (digitsVal ss ≤ 59)
      if okDate && okTime then Option.some (digitsVal hh, digitsVal m2)
      else Option.none
  else Option.none

/-- Replace every `'Z'` by `"+00:00"` — Python
`str(value).replace("Z", "+00:00")` for the one-character pattern. -/
def replaceZ (s : String) : String :=
  ⟨s.data.foldr
    (fun c acc => if c = 'Z' then '+' :: '0' :: '0' :: ':' :: '0' :: '0' :: acc
                  else c :: acc) []⟩

/-- `parse_datetime` from the source, reduced to the (hour, month) pair
consumed by `derive_time_features`. -/
def parse_datetime (v : PyVal) : Option (ℕ × ℕ) :=
  if pyFalsy v then Option.none
  else isoParse (replaceZ (pyStr v)).data

/-- `derive_time_features`: `(0.0, 0.0)` when the start time is absent
or unparsable, otherwise (hour, month) as numbers. -/
def derive_time_features (row : Incident) : ℚ × ℚ :=
  match parse_datetime (pyGet row "start_time") with
  | Option.none => (0, 0)
  | Option.some (h, m) => ((h : ℚ), (m : ℚ))

/-- `NUMERIC_FEATURES` from the source. -/
def NUMERIC_FEATURES : List String :=
  ["severity_1_5", "duration_hours", "population_affected_est", "injuries_est",
   "fatalities_est", "structures_threatened", "structures_damaged", "acres_burned",
   "wind_mph", "precip_inches", "temperature_f", "evacuation_order_issued",
   "evac_population_est", "hospital_diversion_flag", "start_hour", "start_month"]

/-- `CATEGORICAL_FEATURES` from the source. -/
def CATEGORICAL_FEATURES : List String :=
  ["incident_category", "incident_subtype", "city", "state"]

/-- The trimmed observed value of a categorical feature:
`str(row.get(feature, "")).strip()`, the expression used both by
`collect_categorical_levels` and by `vectorize_incident`. -/
def catLevel (row : Incident) (feature : String) : String :=
  pyStrip (pyGetStr row feature)

/-- Python set insertion, represented as a duplicate-free list. -/
def setInsert (s : List String) (v : String) : List String :=
  if v ∈ s then s else s ++ [v]

/-- The set of distinct trimmed non-empty observed values of one
categorical feature across the rows (the `levels[feature]` set). -/
def levelFold (rows : List Incident) (feature : String) : List String :=
  rows.foldl
    (fun s row => let v := catLevel row feature; if v = "" then s else setInsert s v) []

/-- `collect_categorical_levels` from the source: for each categorical
feature, the `sorted(...)` list of its observed value set; the returned
dict has exactly the categorical features as keys. -/
def collect_categorical_levels (rows : List Incident) : Vocab :=
  fun feature =>
    if feature ∈ CATEGORICAL_FEATURES then
      Option.some (List.insertionSort (· ≤ ·) (levelFold rows feature))
    else Option.none

/-- `build_feature_order`: the numeric names followed by, per
categorical feature in declared order, one `feature__level` column per
vocabulary entry. -/
def build_feature_order (levels : Vocab) : List String :=
  CATEGORICAL_FEATURES.foldl
    (fun order feature =>
      order ++ ((levels feature).getD []).map (fun level => feature ++ "__" ++ level))
    NUMERIC_FEATURES

/-- The `values` dict being built by `vectorize_incident`. -/
def ValDict : Type := String → Option ℚ

/-- Python dict assignment `d[k] = v`. -/
def dinsert (d : ValDict) (k : String) (v : ℚ) : ValDict :=
  fun s => if s = k then Option.some v else d s

/-- The empty dict. -/
def demptyDict : ValDict := fun _ => Option.none

/-- The numeric-feature loop of `vectorize_incident`. -/
def numericValues (inc : Incident) : ValDict :=
  NUMERIC_FEATURES.foldl
    (fun d feature =>
      if feature = "evacuation_order_issued" ∨ feature = "hospital_diversion_flag" then
        dinsert d feature (parse_bool (pyGet inc feature))
      else if feature = "start_hour" ∨ feature = "start_month" then
        dinsert (dinsert d "start_hour" (derive_time_features inc).1)
          "start_month" (derive_time_features inc).2
      else dinsert d feature (parse_float (pyGet inc feature)))
    demptyDict

/-- One iteration of the one-hot loop of `vectorize_incident`: for one
categorical feature, set column `feature__option` to 1.0 for the
observed (trimmed) value and 0.0 for every other vocabulary option. -/
def oneHotStep (inc : Incident) (levels : Vocab) (d : ValDict) (feature : String) : ValDict :=
  let level := catLevel inc feature
  ((levels feature).getD []).foldl
    (fun d2 option =>
      dinsert d2 (feature ++ "__" ++ option) (if option = level then 1 else 0))
    d

/-- The complete `values` dict of `vectorize_incident`. -/
def valueMap (inc : Incident) (levels : Vocab) : ValDict :=
  CATEGORICAL_FEATURES.foldl (oneHotStep inc levels) (numericValues inc)

/-- `vectorize_incident`: one entry per feature-order column, defaulting
to 0.0 for names missing from the values dict. -/
def vectorize_incident (inc : Incident) (feature_order : List String) (levels : Vocab) :
    List ℚ :=
  feature_order.map (fun name => (valueMap inc levels name).getD 0)

/-- `load`-style helper: `parse_float(r.get(target))` for both target
fields, i.e. one row of the target matrix `Y`. -/
def targetOf (r : Incident) : ℚ × ℚ :=
  (parse_float (pyGet r "firetrucks_dispatched_engines"),
   parse_float (pyGet r "ambulances_dispatched"))

/-- `euclidean_dist` with the square root as an explicit parameter:
`sqrtQ (dot (a - b) (a - b))`. -/
def euclidean_dist (sqrtQ : ℚ → ℚ) (a b : List ℚ) : ℚ :=
  sqrtQ ((List.zipWith (· * ·) (List.zipWith (· - ·) a b) (List.zipWith (· - ·) a b)).sum)

/-- The vocabulary `knn_predict` rebuilds from its rows. -/
def knnLevels (rows : List Incident) : Vocab := collect_categorical_levels rows

/-- The feature order `knn_predict` derives from that vocabulary. -/
def knnOrder (rows : List Incident) : List String := build_feature_order (knnLevels rows)

/-- The training matrix `X`: every historical row vectorized. -/
def knnX (rows : List Incident) : List (List ℚ) :=
  rows.map (fun r => vectorize_incident r (knnOrder rows) (knnLevels rows))

/-- The query vector `qv`. -/
def knnQv (q : Incident) (rows : List Incident) : List ℚ :=
  vectorize_incident q (knnOrder rows) (knnLevels rows)

/-- The distance array `dists`. -/
def knnDists (sqrtQ : ℚ → ℚ) (q : Incident) (rows : List Incident) : List ℚ :=
  (knnX rows).map (fun x => euclidean_dist sqrtQ (knnQv q rows) x)

/-- The sort key of `np.argsort` made explicit: index `i` precedes
index `j` when its distance is smaller, or the distances are equal and
`i` comes first in the original row order (stable tie-breaking). -/
def argRel (ds : List ℚ) (i j : ℕ) : Prop :=
  ds.getD i 0 < ds.getD j 0 ∨ (ds.getD i 0 = ds.getD j 0 ∧ i ≤ j)

instance argRelDecidable (ds : List ℚ) : DecidableRel (argRel ds) := fun i j =>
  inferInstanceAs (Decidable (ds.getD i 0 < ds.getD j 0 ∨
    (ds.getD i 0 = ds.getD j 0 ∧ i ≤ j)))

/-- An executable model of `np.argsort(dists)`: the index list
`[0, ..., n-1]` sorted by distance with ties broken by original
position.  This is one admissible refinement of `ArgsortSpec` below;
the source uses the default `kind='quicksort'`, whose tie order NumPy
leaves unspecified, so stable tie-breaking is NOT guaranteed by the
program. -/
def argsort (ds : List ℚ) : List ℕ :=
  List.insertionSort (argRel ds) (List.range ds.length)

/-- Everything NumPy documents for `np.argsort` with the default
`kind='quicksort'`: the result is a permutation of `[0, ..., n-1]`
arranging the distance values in ascending order.  The relative order
of equal values is unspecified. -/
def ArgsortSpec (ds : List ℚ) (ord : List ℕ) : Prop :=
  ord.Perm (List.range ds.length) ∧
  List.Sorted (fun i j => ds.getD i 0 ≤ ds.getD j 0) ord

/-- `k = max(1, int(k))` from the source, as a natural number. -/
def kClamp (k : ℤ) : ℕ := (max 1 k).toNat

/-- `idx = order[: min(k, len(order))]`. -/
def knnIdx (sqrtQ : ℚ → ℚ) (q : Incident) (rows : List Incident) (k : ℤ) : List ℕ :=
  let ord := argsort (knnDists sqrtQ q rows)
  ord.take (min (kClamp k) ord.length)

/-- `eps = 1e-6`. -/
def knnEps : ℚ := 1 / 1000000

/-- `d = dists[idx]`. -/
def knnSelDists (sqrtQ : ℚ → ℚ) (q : Incident) (rows : List Incident) (k : ℤ) : List ℚ :=
  (knnIdx sqrtQ q rows k).map (fun i => (knnDists sqrtQ q rows).getD i 0)

/-- `w = 1.0 / (d + eps)`. -/
def knnWeights (sqrtQ : ℚ → ℚ) (q : Incident) (rows : List Incident) (k : ℤ) : List ℚ :=
  (knnSelDists sqrtQ q rows k).map (fun x => 1 / (x + knnEps))

/-- `Y[idx]`. -/
def knnSelTargets (sqrtQ : ℚ → ℚ) (q : Incident) (rows : List Incident) (k : ℤ) :
    List (ℚ × ℚ) :=
  (knnIdx sqrtQ q rows k).map (fun i => (rows.map targetOf).getD i (0, 0))

/-- `(w @ Y[idx]) / w_sum`: the distance-weighted average of the
selected targets, componentwise. -/
def knnWeightedAvg (sqrtQ : ℚ → ℚ) (q : Incident) (rows : List Incident) (k : ℤ) : ℚ × ℚ :=
  let w := knnWeights sqrtQ q rows k
  let t := knnSelTargets sqrtQ q rows k
  let s := w.sum
  ((((w.zip t).map (fun p => p.1 * p.2.1)).sum) / s,
   (((w.zip t).map (fun p => p.1 * p.2.2)).sum) / s)

/-- `np.mean(Y[idx], axis=0)`: the unweighted fallback mean. -/
def knnMeanPred (sqrtQ : ℚ → ℚ) (q : Incident) (rows : List Incident) (k : ℤ) : ℚ × ℚ :=
  let t := knnSelTargets sqrtQ q rows k
  ((t.map Prod.fst).sum / (t.length : ℚ), (t.map Prod.snd).sum / (t.length : ℚ))

/-- The raw prediction `pred`: the weighted average, or the unweighted
mean when the summed weight is `≤ 0` (the guarded fallback). -/
def knnRawPred (sqrtQ : ℚ → ℚ) (q : Incident) (rows : List Incident) (k : ℤ) : ℚ × ℚ :=
  if (knnWeights sqrtQ q rows k).sum ≤ 0 then knnMeanPred sqrtQ q rows k
  else knnWeightedAvg sqrtQ q rows k

/-- `clamp_nonneg` from the source: `float(x) if x > 0 else 0.0`. -/
def clamp_nonneg (x : ℚ) : ℚ := if 0 < x then x else 0

/-- `int(math.ceil(x))`. -/
def ceilInt (x : ℚ) : ℤ := ⌈x⌉

/-- One entry of the `similar_incidents_top5` explanation list. -/
structure SimilarEntry where
  rank : ℕ
  row_index : ℕ
  distance : ℚ
  incident_category : String
  incident_subtype : String
  city : String
  state : String
  population_affected_est : ℚ
  structures_damaged : ℚ
  structures_threatened : ℚ
  actual_firetrucks_dispatched_engines : ℚ
  actual_ambulances_dispatched : ℚ
deriving DecidableEq

/-- The default row for out-of-range indexing (never reached). -/
def emptyInc : Incident := fun _ => Option.none

/-- The explanation payload: the top `min(5, len(idx))` neighbors. -/
def knnSimilar (sqrtQ : ℚ → ℚ) (q : Incident) (rows : List Incident) (k : ℤ) :
    List SimilarEntry :=
  let idx := knnIdx sqrtQ q rows k
  let dists := knnDists sqrtQ q rows
  (List.range (min 5 idx.length)).map (fun rank =>
    let i := idx.getD rank 0
    let r := rows.getD i emptyInc
    { rank := rank + 1
      row_index := i
      distance := dists.getD i 0
      incident_category := pyGetStr r "incident_category"
      incident_subtype := pyGetStr r "incident_subtype"
      city := pyGetStr r "city"
      state := pyGetStr r "state"
      population_affected_est := parse_float (pyGet r "population_affected_est")
      structures_damaged := parse_float (pyGet r "structures_damaged")
      structures_threatened := parse_float (pyGet r "structures_threatened")
      actual_firetrucks_dispatched_engines :=
        parse_float (pyGet r "firetrucks_dispatched_engines")
      actual_ambulances_dispatched := parse_float (pyGet r "ambulances_dispatched") })

/-- The `query_used` echo of the result payload (`query.get(...)` with
Python `None` default, i.e. the raw optional dict entries). -/
structure QueryUsed where
  incident_category : Option PyVal
  incident_subtype : Option PyVal
  city : Option PyVal
  state : Option PyVal
  buildings_affected : Option PyVal
  population_affected_est : Option PyVal
  severity_1_5 : Option PyVal
deriving DecidableEq

/-- Builds the `query_used` payload from the query dict. -/
def knnQueryUsed (q : Incident) : QueryUsed :=
  { incident_category := q "incident_category"
    incident_subtype := q "incident_subtype"
    city := q "city"
    state := q "state"
    buildings_affected := q "structures_damaged"
    population_affected_est := q "population_affected_est"
    severity_1_5 := q "severity_1_5" }

/-- The full return payload of `knn_predict`. -/
structure KnnResult where
  pred_engines : ℤ
  pred_ambulances : ℤ
  query_used : QueryUsed
  similar : List SimilarEntry
  k_used : ℕ
deriving DecidableEq

/-- `knn_predict(query, rows, k, min_pool)`.  Raising `ValueError` on an
empty dataset is modelled by `Option.none`.  The `min_pool` parameter is
accepted, exactly as in the source, and never read. -/
def knn_predict (sqrtQ : ℚ → ℚ) (q : Incident) (rows : List Incident)
    (k : ℤ) ( min_pool : ℤ) : Option KnnResult :=
  if rows.isEmpty then Option.none
  else Option.some
    { pred_engines := ceilInt (clamp_nonneg (knnRawPred sqrtQ q rows k).1)
      pred_ambulances := ceilInt (clamp_nonneg (knnRawPred sqrtQ q rows k).2)
      query_used := knnQueryUsed q
      similar := knnSimilar sqrtQ q rows k
      k_used := (knnIdx sqrtQ q rows k).length }

/-- Python `round()`: round half to even (banker's rounding), as used
by the severity heuristic. -/
def pyRound (q : ℚ) : ℤ :=
  let f := ⌊q⌋
  let r := q - (f : ℚ)
  if r < 1 / 2 then f
  else if 1 / 2 < r then f + 1
  else if 2 ∣ f then f else f + 1

/-- The severity score of `make_query_incident_from_ui`:
`min(buildings/25, 2) + min(population/20000, 3)`. -/
def uiScore (buildings population : ℚ) : ℚ :=
  min (buildings / 25) 2 + min (population / 20000) 3

/-- The severity of `make_query_incident_from_ui`:
`max(1, min(5, int(round(1 + min(max(score, 0), 4)))))`. -/
def uiSeverity (buildings population : ℚ) : ℤ :=
  max 1 (min 5 (pyRound (1 + min (max (uiScore buildings population) 0) 4)))

/-- `make_query_incident_from_ui`: the synthesized query dict. -/
def make_query_incident_from_ui (city : String) (buildings_affected : ℚ)
    (population_affected : ℚ) (incident_category : String)
    (incident_subtype : String) (inferred_state : String) : Incident := fun field =>
  if field = "severity_1_5" then Option.some (PyVal.rat ((uiSeverity buildings_affected population_affected : ℤ) : ℚ))
  else if field = "duration_hours" then Option.some (PyVal.rat 0)
  else if field = "population_affected_est" then Option.some (PyVal.rat population_affected)
  else if field = "injuries_est" then Option.some (PyVal.rat 0)
  else if field = "fatalities_est" then Option.some (PyVal.rat 0)
  else if field = "structures_threatened" then Option.some (PyVal.rat buildings_affected)
  else if field = "structures_damaged" then Option.some (PyVal.rat buildings_affected)
  else if field = "acres_burned" then Option.some (PyVal.rat 0)
  else if field = "wind_mph" then Option.some (PyVal.rat 0)
  else if field = "precip_inches" then Option.some (PyVal.rat 0)
  else if field = "temperature_f" then Option.some (PyVal.rat 0)
  else if field = "evacuation_order_issued" then Option.some (PyVal.rat 0)
  else if field = "evac_population_est" then Option.some (PyVal.rat 0)
  else if field = "hospital_diversion_flag" then Option.some (PyVal.rat 0)
  else if field = "start_time" then Option.some PyVal.none
  else if field = "incident_category" then Option.some (PyVal.str incident_category)
  else if field = "incident_subtype" then Option.some (PyVal.str incident_subtype)
  else if field = "city" then Option.some (PyVal.str city)
  else if field = "state" then Option.some (PyVal.str inferred_state)
  else Option.none

/-- The four components `ResourceModel.from_dict` extracts.  The Python
code performs no type validation of the payload values, so the
component type is an arbitrary `α`. -/
structure RModelParts (α : Type) where
  feature_order : α
  categorical_levels : α
  coef : α
  intercept : α
deriving DecidableEq

/-- `ResourceModel.from_dict(payload)`: subscripting `payload[key]`
raises `KeyError` (modelled by `Option.none`) exactly when a key is
absent; otherwise the model carries the four components unchanged. -/
def from_dict {α : Type} (payload : String → Option α) : Option (RModelParts α) :=
  match payload "feature_order", payload "categorical_levels",
        payload "coef", payload "intercept" with
  | Option.some a, Option.some b, Option.some c, Option.some d =>
      Option.some ⟨a, b, c, d⟩
  | _, _, _, _ => Option.none

/-- Concrete witness payload for C10: all four fields present. -/
def fullPayload : String → Option ℚ := fun s =>
  if s = "feature_order" then Option.some 1
  else if s = "categorical_levels" then Option.some 2
  else if s = "coef" then Option.some 3
  else if s = "intercept" then Option.some 4
  else Option.none

/-- The empty vocabulary, for concrete witnesses. -/
def emptyVocab : Vocab := fun _ => Option.none

/-- A witness row holding one categorical value. -/
def rowCat (s : String) : Incident :=
  fun f => if f = "incident_category" then Option.some (PyVal.str s) else Option.none

/-- A concrete vocabulary for the C6 witness. -/
def vocabCat : Vocab :=
  fun f => if f = "incident_category" then Option.some ["Fire", "Flood"] else Option.none

/-- C3: `knn_predict` is deterministic — two invocations with the same
square-root function, query, rows, `k` and `min_pool` return identical
results.  In this embedding `knn_predict` is a pure function of its
inputs (there is no hidden state or randomness in the source), so the
two calls are definitionally equal. -/
theorem knn_predict_deterministic (sqrtQ : ℚ → ℚ) (q : Incident)
    (rows : List Incident) (k mp : ℤ) :
    knn_predict sqrtQ q rows k mp = knn_predict sqrtQ q rows k mp := rfl

/-- C4: the `min_pool` parameter has no effect on the output of
`knn_predict` — the source accepts it and never reads it. -/
theorem knn_predict_min_pool_irrelevant (sqrtQ : ℚ → ℚ) (q : Incident)
    (rows : List Incident) (k mp1 mp2 : ℤ) :
    knn_predict sqrtQ q rows k mp1 = knn_predict sqrtQ q rows k mp2 := rfl

/-- C7: `knn_predict` fails with the data-unavailable error (modelled as
`Option.none`) exactly when the list of historical rows is empty; on any
non-empty list it produces a prediction. -/
theorem knn_predict_none_iff_empty (sqrtQ : ℚ → ℚ) (q : Incident)
    (rows : List Incident) (k mp : ℤ) :
    knn_predict sqrtQ q rows k mp = Option.none ↔ rows = [] := by
  unfold knn_predict
  cases rows <;> simp

/-- C10: `ResourceModel.from_dict` fails (raises `KeyError`, modelled as
`Option.none`) exactly when one of the four fields `feature_order`,
`categorical_levels`, `coef`, `intercept` is missing from the payload;
when all four are present it succeeds with the model carrying exactly
those four components. -/
theorem from_dict_missing_fields {α : Type} (payload : String → Option α) :
    (from_dict payload = Option.none ↔
      (payload "feature_order" = Option.none ∨
       payload "categorical_levels" = Option.none ∨
       payload "coef" = Option.none ∨
       payload "intercept" = Option.none)) ∧
    (∀ a b c d, payload "feature_order" = Option.some a →
      payload "categorical_levels" = Option.some b →
      payload "coef" = Option.some c →
      payload "intercept" = Option.some d →
      from_dict payload = Option.some ⟨a, b, c, d⟩) := by
  constructor
  · unfold from_dict
    rcases h1 : payload "feature_order" with _ | a <;>
      rcases h2 : payload "categorical_levels" with _ | b <;>
        rcases h3 : payload "coef" with _ | c <;>
          rcases h4 : payload "intercept" with _ | d <;> simp
  · intro a b c d h1 h2 h3 h4
    unfold from_dict
    rw [h1, h2, h3, h4]

/-- Witness for C10 at a concrete payload containing all four fields. -/
theorem from_dict_missing_fields_witness :
    from_dict fullPayload = Option.some ⟨1, 2, 3, 4⟩ :=
  (from_dict_missing_fields fullPayload).2 1 2 3 4 rfl rfl rfl rfl

/-- C5: the vector returned by `vectorize_incident` has exactly one
entry per feature-order column, and a column name missing from the
computed values dict contributes `0.0`. -/
theorem vectorize_incident_length (inc : Incident) (fo : List String) (levels : Vocab) :
    (vectorize_incident inc fo levels).length = fo.length ∧
    ∀ i (h : i < fo.length), valueMap inc levels (fo.get ⟨i, h⟩) = Option.none →
      (vectorize_incident inc fo levels).getD i 0 = 0 := by
  constructor
  · exact List.length_map fo _
  · intro i h hnone
    unfold vectorize_incident
    rw [List.getD_eq_getElem?_getD, List.getElem?_map,
      List.getElem?_eq_getElem h]
    simp only [Option.map_some', Option.getD_some]
    rw [List.get_eq_getElem] at hnone
    rw [hnone]
    rfl

/-- Witness for C5: a concrete column name absent from the values dict
yields entry `0`. -/
theorem vectorize_incident_length_witness :
    (vectorize_incident emptyInc ["nope"] emptyVocab).getD 0 0 = 0 :=
  (vectorize_incident_length emptyInc ["nope"] emptyVocab).2 0 (by decide) (by decide)

/-- C9: the severity stored by `make_query_incident_from_ui` is
`clamp(round(1 + clamp(score, 0, 4)), 1, 5)` for
`score = min(buildings/25, 2) + min(population/20000, 3)`; it is always
an integer in `[1, 5]`; `(0, 0)` gives severity 1 and
`(1000, 1000000)` gives severity 5. -/
theorem make_query_severity (city cat sub st : String) (b p : ℚ)
    (hb : 0 ≤ b) (hp : 0 ≤ p) :
    make_query_incident_from_ui city b p cat sub st "severity_1_5"
      = Option.some (PyVal.rat ((uiSeverity b p : ℤ) : ℚ)) ∧
    uiSeverity b p
      = max 1 (min 5 (pyRound (1 + min (max (min (b / 25) 2 + min (p / 20000) 3) 0) 4))) ∧
    1 ≤ uiSeverity b p ∧ uiSeverity b p ≤ 5 ∧
    uiSeverity 0 0 = 1 ∧ uiSeverity 1000 1000000 = 5 := by
  refine ⟨rfl, rfl, le_max_left _ _, ?_,
    by norm_num [uiSeverity, uiScore, pyRound, min_def, max_def],
    by norm_num [uiSeverity, uiScore, pyRound, min_def, max_def]⟩
  exact max_le (by norm_num) (min_le_left _ _)

/-- Witness for C9 at `buildings = 0`, `population = 0`. -/
theorem make_query_severity_witness :
    1 ≤ uiSeverity 0 0 ∧ uiSeverity 0 0 ≤ 5 :=
  ⟨(make_query_severity "" "" "" "" 0 0 le_rfl le_rfl).2.2.1,
   (make_query_severity "" "" "" "" 0 0 le_rfl le_rfl).2.2.2.1⟩

/-- Membership in a Python set after one insertion. -/
theorem mem_setInsert (s : List String) (w v : String) :
    v ∈ setInsert s w ↔ v ∈ s ∨ v = w := by
  unfold setInsert
  by_cases h : w ∈ s
  · simp only [if_pos h]
    constructor
    · exact Or.inl
    · rintro (hv | rfl)
      · exact hv
      · exact h
  · simp [if_neg h]

/-- Set insertion keeps the representation duplicate-free. -/
theorem nodup_setInsert (s : List String) (w : String) (h : s.Nodup) :
    (setInsert s w).Nodup := by
  unfold setInsert
  by_cases hw : w ∈ s <;> simp [hw, List.nodup_append, h]

/-- Membership in the value set accumulated by the
`collect_categorical_levels` row scan (accumulator generalized). -/
theorem mem_levelFold_aux (f v : String) :
    ∀ (rows : List Incident) (acc : List String),
      (v ∈ rows.foldl
        (fun s row => let w := catLevel row f; if w = "" then s else setInsert s w) acc) ↔
      (v ∈ acc ∨ (v ≠ "" ∧ ∃ r ∈ rows, catLevel r f = v))
  | [], acc => by simp
  | r :: t, acc => by
    rw [List.foldl_cons, mem_levelFold_aux f v t]
    by_cases h : catLevel r f = ""
    · simp only [h, if_pos rfl]
      constructor
      · rintro (hv | hv)
        · exact Or.inl hv
        · exact Or.inr ⟨hv.1, hv.2.choose, List.mem_cons_of_mem _ hv.2.choose_spec.1,
            hv.2.choose_spec.2⟩
      · rintro (hv | ⟨hne, r', hr', hv⟩)
        · exact Or.inl hv
        · rcases List.mem_cons.1 hr' with rfl | hr'
          · exact absurd (hv ▸ h) hne
          · exact Or.inr ⟨hne, r', hr', hv⟩
    · simp only [if_neg h, mem_setInsert]
      constructor
      · rintro ((hv | rfl) | hv)
        · exact Or.inl hv
        · exact Or.inr ⟨h, r, List.mem_cons_self _ _, rfl⟩
        · exact Or.inr ⟨hv.1, hv.2.choose, List.mem_cons_of_mem _ hv.2.choose_spec.1,
            hv.2.choose_spec.2⟩
      · rintro (hv | ⟨hne, r', hr', hv⟩)
        · exact Or.inl (Or.inl hv)
        · rcases List.mem_cons.1 hr' with rfl | hr'
          · exact Or.inl (Or.inr hv.symm)
          · exact Or.inr ⟨hne, r', hr', hv⟩

/-- The accumulated value set is duplicate-free. -/
theorem nodup_levelFold_aux (f : String) :
    ∀ (rows : List Incident) (acc : List String), acc.Nodup →
      (rows.foldl
        (fun s row => let w := catLevel row f; if w = "" then s else setInsert s w) acc).Nodup
  | [], _, h => h
  | r :: t, acc, h => by
    rw [List.foldl_cons]
    apply nodup_levelFold_aux f t
    by_cases hw : catLevel r f = ""
    · simpa [hw] using h
    · simpa [hw] using nodup_setInsert acc _ h

/-- Membership in `levelFold`. -/
theorem mem_levelFold (rows : List Incident) (f v : String) :
    v ∈ levelFold rows f ↔ (v ≠ "" ∧ ∃ r ∈ rows, catLevel r f = v) := by
  unfold levelFold
  rw [mem_levelFold_aux]
  simp

/-- `levelFold` is duplicate-free. -/
theorem nodup_levelFold (rows : List Incident) (f : String) : (levelFold rows f).Nodup :=
  nodup_levelFold_aux f rows [] List.nodup_nil

/-- A `≤`-sorted duplicate-free list of strings is strictly sorted. -/
theorem sorted_lt_of_sorted_le_nodup {l : List String}
    (hs : l.Sorted (· ≤ ·)) (hn : l.Nodup) : l.Sorted (· < ·) :=
  (List.Pairwise.and hs hn).imp (fun h => lt_of_le_of_ne h.1 h.2)

/-- C8: for each categorical feature, `collect_categorical_levels`
returns the distinct trimmed non-empty observed values in strictly
ascending (lexicographic) order, and the result is invariant under any
permutation of the input rows. -/
theorem collect_levels_sorted_perm_invariant :
    (∀ (rows : List Incident) (f : String), f ∈ CATEGORICAL_FEATURES →
      ∃ l, collect_categorical_levels rows f = Option.some l ∧
        List.Sorted (· < ·) l ∧
        (∀ v, v ∈ l ↔ (v ≠ "" ∧ ∃ r ∈ rows, catLevel r f = v))) ∧
    (∀ rows rows' : List Incident, rows.Perm rows' →
      collect_categorical_levels rows = collect_categorical_levels rows') := by
  constructor
  · intro rows f hf
    refine ⟨List.insertionSort (· ≤ ·) (levelFold rows f), ?_, ?_, ?_⟩
    · unfold collect_categorical_levels
      rw [if_pos hf]
    · exact sorted_lt_of_sorted_le_nodup
        (List.sorted_insertionSort (· ≤ ·) (levelFold rows f))
        ((List.perm_insertionSort (· ≤ ·) (levelFold rows f)).nodup_iff.2
          (nodup_levelFold rows f))
    · intro v
      rw [(List.perm_insertionSort (· ≤ ·) (levelFold rows f)).mem_iff]
      exact mem_levelFold rows f v
  · intro rows rows' hperm
    funext f
    unfold collect_categorical_levels
    by_cases hf : f ∈ CATEGORICAL_FEATURES
    · rw [if_pos hf, if_pos hf, Option.some.injEq]
      apply List.eq_of_perm_of_sorted (r := (· ≤ ·))
      · apply (List.perm_insertionSort _ _).trans
        apply List.Perm.trans _ (List.perm_insertionSort _ _).symm
        rw [List.perm_ext_iff_of_nodup (nodup_levelFold rows f) (nodup_levelFold rows' f)]
        intro v
        rw [mem_levelFold, mem_levelFold]
        constructor
        · rintro ⟨hne, r, hr, hv⟩
          exact ⟨hne, r, hperm.mem_iff.1 hr, hv⟩
        · rintro ⟨hne, r, hr, hv⟩
          exact ⟨hne, r, hperm.mem_iff.2 hr, hv⟩
      · exact List.sorted_insertionSort _ _
      · exact List.sorted_insertionSort _ _
    · rw [if_neg hf, if_neg hf]

/-- Witness for C8 at a concrete two-row dataset. -/
theorem collect_levels_sorted_perm_invariant_witness :
    (∃ l, collect_categorical_levels [rowCat "b", rowCat "a"] "incident_category"
        = Option.some l ∧
      List.Sorted (· < ·) l ∧
      (∀ v, v ∈ l ↔ (v ≠ "" ∧
        ∃ r ∈ [rowCat "b", rowCat "a"], catLevel r "incident_category" = v))) ∧
    collect_categorical_levels [rowCat "b", rowCat "a"]
      = collect_categorical_levels [rowCat "a", rowCat "b"] :=
  ⟨collect_levels_sorted_perm_invariant.1 [rowCat "b", rowCat "a"]
      "incident_category" (by decide),
   collect_levels_sorted_perm_invariant.2 _ _ (List.Perm.swap _ _ _)⟩

/-- Looking up the key just assigned. -/
theorem dinsert_self (d : ValDict) (k : String) (v : ℚ) :
    dinsert d k v k = Option.some v := by
  unfold dinsert
  simp

/-- Looking up a different key sees the previous dict. -/
theorem dinsert_ne (d : ValDict) (k k2 : String) (v : ℚ) (h : k2 ≠ k) :
    dinsert d k v k2 = d k2 := by
  unfold dinsert
  simp [h]

/-- Appending the same prefix string is injective on the suffix. -/
theorem string_append_cancel (p o1 o2 : String) (h : p ++ o1 = p ++ o2) : o1 = o2 := by
  have hd : p.data ++ o1.data = p.data ++ o2.data := by
    rw [← String.data_append, ← String.data_append, h]
  exact String.ext (List.append_inj_right hd rfl)

/-- Two prefixed strings differ when their prefixes disagree at some
position within both. -/
theorem ne_of_data_ne_at (p q : String) (i : ℕ) (hp : i < p.data.length)
    (hq : i < q.data.length) (hne : p.data[i]? ≠ q.data[i]?) (o o2 : String) :
    p ++ o ≠ q ++ o2 := by
  intro h
  apply hne
  have hd : p.data ++ o.data = q.data ++ o2.data := by
    rw [← String.data_append, ← String.data_append, h]
  calc p.data[i]? = (p.data ++ o.data)[i]? := (List.getElem?_append_left hp).symm
    _ = (q.data ++ o2.data)[i]? := by rw [hd]
    _ = q.data[i]? := List.getElem?_append_left hq

/-- One-hot column keys of distinct categorical features never collide
(the feature-name prefixes disagree at position `i`). -/
theorem catKey_ne (f f2 : String) (i : ℕ) (hp : i < (f ++ "__").data.length)
    (hq : i < (f2 ++ "__").data.length)
    (hne : (f ++ "__").data[i]? ≠ (f2 ++ "__").data[i]?) (o o2 : String) :
    f ++ "__" ++ o ≠ f2 ++ "__" ++ o2 :=
  ne_of_data_ne_at (f ++ "__") (f2 ++ "__") i hp hq hne o o2

/-- A one-hot fold leaves untouched every key it never writes. -/
theorem oneHot_fold_preserve (f lev K : String) :
    ∀ (opts : List String) (d : ValDict), (∀ o ∈ opts, f ++ "__" ++ o ≠ K) →
      (opts.foldl
        (fun d2 o => dinsert d2 (f ++ "__" ++ o) (if o = lev then 1 else 0)) d) K = d K
  | [], _, _ => rfl
  | a :: t, d, h => by
    rw [List.foldl_cons,
      oneHot_fold_preserve f lev K t _ (fun o ho => h o (List.mem_cons_of_mem a ho)),
      dinsert_ne _ _ _ _ (Ne.symm (h a (List.mem_cons_self a t)))]

/-- A one-hot fold writes `1` at the observed level's column and `0` at
every other vocabulary column of the same feature. -/
theorem oneHot_fold_lookup (f lev : String) :
    ∀ (opts : List String) (d : ValDict) (o : String), o ∈ opts →
      (opts.foldl
          (fun d2 o2 => dinsert d2 (f ++ "__" ++ o2) (if o2 = lev then 1 else 0)) d)
        (f ++ "__" ++ o) = Option.some (if o = lev then 1 else 0)
  | [], _, _, ho => absurd ho (List.not_mem_nil _)
  | a :: t, d, o, ho => by
    rw [List.foldl_cons]
    by_cases hmem : o ∈ t
    · exact oneHot_fold_lookup f lev t _ o hmem
    · have hoa : o = a := (List.mem_cons.1 ho).resolve_right hmem
      subst hoa
      rw [oneHot_fold_preserve f lev _ t _
        (fun o2 h2 he => hmem (string_append_cancel (f ++ "__") o2 o he ▸ h2)),
        dinsert_self]

/-- `oneHotStep` for feature `f2` does not touch key `K` when none of
its column keys equals `K`. -/
theorem oneHotStep_preserve (inc : Incident) (levels : Vocab) (d : ValDict)
    (f2 K : String) (h : ∀ o ∈ (levels f2).getD [], f2 ++ "__" ++ o ≠ K) :
    oneHotStep inc levels d f2 K = d K :=
  oneHot_fold_preserve f2 (catLevel inc f2) K ((levels f2).getD []) d h

/-- `oneHotStep` for feature `f` writes the one-hot value at each of its
vocabulary columns. -/
theorem oneHotStep_lookup (inc : Incident) (levels : Vocab) (d : ValDict)
    (f o : String) (ho : o ∈ (levels f).getD []) :
    oneHotStep inc levels d f (f ++ "__" ++ o)
      = Option.some (if o = catLevel inc f then 1 else 0) :=
  oneHot_fold_lookup f (catLevel inc f) ((levels f).getD []) d o ho

/-- The categorical fold of `vectorize_incident`, written out over the
four declared features. -/
theorem valueMap_unfold (inc : Incident) (levels : Vocab) :
    valueMap inc levels
      = oneHotStep inc levels
          (oneHotStep inc levels
            (oneHotStep inc levels
              (oneHotStep inc levels (numericValues inc) "incident_category")
              "incident_subtype")
            "city")
          "state" := rfl

/-- C6: for every incident and vocabulary, the values dict built by
`vectorize_incident` holds, at each one-hot column `f__o` of a
categorical feature `f`, exactly `1.0` when `o` equals the trimmed
observed value and `0.0` otherwise; when the trimmed observed value
matches no vocabulary entry, every one-hot column of `f` is `0.0` (and
no error occurs — the function is total). -/
theorem vectorize_one_hot (inc : Incident) (levels : Vocab) (f : String)
    (hf : f ∈ CATEGORICAL_FEATURES) :
    (∀ o ∈ (levels f).getD [], valueMap inc levels (f ++ "__" ++ o)
        = Option.some (if o = catLevel inc f then 1 else 0)) ∧
    (catLevel inc f ∉ (levels f).getD [] →
      ∀ o ∈ (levels f).getD [], valueMap inc levels (f ++ "__" ++ o) = Option.some 0) ∧
    (∀ (fo : List String) i (h : i < fo.length) o, o ∈ (levels f).getD [] →
      fo.get ⟨i, h⟩ = f ++ "__" ++ o →
      (vectorize_incident inc fo levels).getD i 0
        = if o = catLevel inc f then 1 else 0) := by
  have hmain : ∀ o ∈ (levels f).getD [], valueMap inc levels (f ++ "__" ++ o)
      = Option.some (if o = catLevel inc f then 1 else 0) := by
    intro o ho
    rw [valueMap_unfold]
    have hf' : f = "incident_category" ∨ f = "incident_subtype" ∨ f = "city" ∨
        f = "state" := by simpa [CATEGORICAL_FEATURES] using hf
    rcases hf' with rfl | rfl | rfl | rfl
    · rw [oneHotStep_preserve _ _ _ "state" _
        (fun o2 _ => catKey_ne "state" "incident_category" 0 (by decide) (by decide)
          (by decide) o2 o),
        oneHotStep_preserve _ _ _ "city" _
        (fun o2 _ => catKey_ne "city" "incident_category" 0 (by decide) (by decide)
          (by decide) o2 o),
        oneHotStep_preserve _ _ _ "incident_subtype" _
        (fun o2 _ => catKey_ne "incident_subtype" "incident_category" 9 (by decide)
          (by decide) (by decide) o2 o),
        oneHotStep_lookup _ _ _ _ _ ho]
    · rw [oneHotStep_preserve _ _ _ "state" _
        (fun o2 _ => catKey_ne "state" "incident_subtype" 0 (by decide) (by decide)
          (by decide) o2 o),
        oneHotStep_preserve _ _ _ "city" _
        (fun o2 _ => catKey_ne "city" "incident_subtype" 0 (by decide) (by decide)
          (by decide) o2 o),
        oneHotStep_lookup _ _ _ _ _ ho]
    · rw [oneHotStep_preserve _ _ _ "state" _
        (fun o2 _ => catKey_ne "state" "city" 0 (by decide) (by decide)
          (by decide) o2 o),
        oneHotStep_lookup _ _ _ _ _ ho]
    · rw [oneHotStep_lookup _ _ _ _ _ ho]
  refine ⟨hmain, ?_, ?_⟩
  · intro hlev o ho
    rw [hmain o ho, if_neg]
    intro he
    exact hlev (he ▸ ho)
  · intro fo i h o ho hname
    unfold vectorize_incident
    rw [List.getD_eq_getElem?_getD, List.getElem?_map, List.getElem?_eq_getElem h]
    simp only [Option.map_some', Option.getD_some]
    rw [List.get_eq_getElem] at hname
    rw [hname, hmain o ho]
    rfl

/-- Witness for C6: the observed value's column is `1.0` and the other
vocabulary column is `0.0` at a concrete incident and vocabulary. -/
theorem vectorize_one_hot_witness :
    valueMap (rowCat "Fire") vocabCat ("incident_category" ++ "__" ++ "Fire")
        = Option.some 1 ∧
    valueMap (rowCat "Fire") vocabCat ("incident_category" ++ "__" ++ "Flood")
        = Option.some 0 := by
  constructor
  · rw [(vectorize_one_hot (rowCat "Fire") vocabCat "incident_category" (by decide)).1
      "Fire" (by decide)]
    decide
  · rw [(vectorize_one_hot (rowCat "Fire") vocabCat "incident_category" (by decide)).1
      "Flood" (by decide)]
    decide

/-- `argsort` permutes the index range. -/
theorem argsort_perm (ds : List ℚ) : (argsort ds).Perm (List.range ds.length) :=
  List.perm_insertionSort _ _

/-- `argsort` returns one index per distance. -/
theorem argsort_length (ds : List ℚ) : (argsort ds).length = ds.length :=
  (argsort_perm ds).length_eq.trans (List.length_range _)

/-- The stable distance order is total. -/
theorem argRel_total (ds : List ℚ) : ∀ i j, argRel ds i j ∨ argRel ds j i := by
  intro i j
  unfold argRel
  rcases lt_trichotomy (ds.getD i 0) (ds.getD j 0) with h | h | h
  · exact Or.inl (Or.inl h)
  · rcases le_total i j with hij | hij
    · exact Or.inl (Or.inr ⟨h, hij⟩)
    · exact Or.inr (Or.inr ⟨h.symm, hij⟩)
  · exact Or.inr (Or.inl h)

/-- The stable distance order is transitive. -/
theorem argRel_trans (ds : List ℚ) :
    ∀ i j m, argRel ds i j → argRel ds j m → argRel ds i m := by
  intro i j m hij hjm
  unfold argRel at hij hjm ⊢
  rcases hij with h1 | ⟨h1, h1b⟩ <;> rcases hjm with h2 | ⟨h2, h2b⟩
  · exact Or.inl (h1.trans h2)
  · exact Or.inl (h2 ▸ h1)
  · exact Or.inl (h1 ▸ h2)
  · exact Or.inr ⟨h1.trans h2, h1b.trans h2b⟩

/-- The executable model is sorted by the stable distance order. -/
theorem argsort_sorted (ds : List ℚ) : List.Sorted (argRel ds) (argsort ds) := by
  haveI : IsTotal ℕ (argRel ds) := ⟨argRel_total ds⟩
  haveI : IsTrans ℕ (argRel ds) := ⟨argRel_trans ds⟩
  exact List.sorted_insertionSort _ _

/-- The executable model `argsort` is one admissible refinement of the
contract NumPy documents for `np.argsort`. -/
theorem argsort_meets_spec (ds : List ℚ) : ArgsortSpec ds (argsort ds) :=
  ⟨argsort_perm ds,
   (argsort_sorted ds).imp (fun h => h.elim le_of_lt (fun h2 => le_of_eq h2.1))⟩

/-- One distance per historical row. -/
theorem knnDists_length (sqrtQ : ℚ → ℚ) (q : Incident) (rows : List Incident) :
    (knnDists sqrtQ q rows).length = rows.length := by
  unfold knnDists knnX
  rw [List.length_map, List.length_map]

/-- The selected neighborhood has `min(max(1, k), N)` indices. -/
theorem knnIdx_length (sqrtQ : ℚ → ℚ) (q : Incident) (rows : List Incident) (k : ℤ) :
    (knnIdx sqrtQ q rows k).length = min (kClamp k) rows.length := by
  unfold knnIdx
  rw [List.length_take, argsort_length, knnDists_length, min_assoc, min_self]

/-- The clamped `k` is at least one. -/
theorem one_le_kClamp (k : ℤ) : 1 ≤ kClamp k := by
  have h : (1 : ℤ) ≤ max 1 k := le_max_left _ _
  unfold kClamp
  omega

/-- Products of a list with itself are non-negative termwise. -/
theorem mem_zipWith_self_mul {l : List ℚ} : ∀ x ∈ List.zipWith (· * ·) l l, 0 ≤ x := by
  induction l with
  | nil => simp
  | cons c t ih =>
    intro x hx
    rw [List.zipWith_cons_cons] at hx
    rcases List.mem_cons.1 hx with rfl | hx
    · exact mul_self_nonneg c
    · exact ih x hx

/-- With a square root that preserves non-negativity, every distance is
non-negative. -/
theorem euclidean_dist_nonneg (sqrtQ : ℚ → ℚ) (hsq : ∀ x, 0 ≤ x → 0 ≤ sqrtQ x)
    (a b : List ℚ) : 0 ≤ euclidean_dist sqrtQ a b :=
  hsq _ (List.sum_nonneg mem_zipWith_self_mul)

/-- All entries of the distance array are non-negative. -/
theorem knnDists_nonneg (sqrtQ : ℚ → ℚ) (hsq : ∀ x, 0 ≤ x → 0 ≤ sqrtQ x)
    (q : Incident) (rows : List Incident) : ∀ y ∈ knnDists sqrtQ q rows, 0 ≤ y := by
  intro y hy
  unfold knnDists at hy
  rcases List.mem_map.1 hy with ⟨x, _, rfl⟩
  exact euclidean_dist_nonneg sqrtQ hsq _ _

/-- Defaulted indexing into a non-negative list is non-negative. -/
theorem getD_nonneg {l : List ℚ} (h : ∀ y ∈ l, 0 ≤ y) (i : ℕ) : 0 ≤ l.getD i 0 := by
  rw [List.getD_eq_getElem?_getD]
  cases hx : l[i]? with
  | none => simp
  | some v =>
    simpa using h v (List.getElem?_mem hx)

/-- Every inverse-distance weight is strictly positive. -/
theorem knnWeights_pos (sqrtQ : ℚ → ℚ) (hsq : ∀ x, 0 ≤ x → 0 ≤ sqrtQ x)
    (q : Incident) (rows : List Incident) (k : ℤ) :
    ∀ w ∈ knnWeights sqrtQ q rows k, 0 < w := by
  intro w hw
  unfold knnWeights at hw
  rcases List.mem_map.1 hw with ⟨x, hx, rfl⟩
  unfold knnSelDists at hx
  rcases List.mem_map.1 hx with ⟨i, _, rfl⟩
  apply div_pos one_pos
  apply add_pos_of_nonneg_of_pos
  · exact getD_nonneg (knnDists_nonneg sqrtQ hsq q rows) i
  · unfold knnEps
    norm_num

/-- On a non-empty dataset the summed weight is strictly positive, so
the guarded mean fallback is never taken. -/
theorem knnWeights_sum_pos (sqrtQ : ℚ → ℚ) (hsq : ∀ x, 0 ≤ x → 0 ≤ sqrtQ x)
    (q : Incident) (rows : List Incident) (k : ℤ) (hrows : rows ≠ []) :
    0 < (knnWeights sqrtQ q rows k).sum := by
  apply List.sum_pos _ (knnWeights_pos sqrtQ hsq q rows k)
  rw [← List.length_pos_iff_ne_nil]
  unfold knnWeights knnSelDists
  rw [List.length_map, List.length_map, knnIdx_length]
  have h1 := one_le_kClamp k
  have h2 : 0 < rows.length := List.length_pos.2 hrows
  omega

/-- C1: on any non-empty dataset `knn_predict` succeeds with
`k_used = min(max(1, k), N)`, and each prediction component is the
ceiling of the distance-weighted average raw prediction after clamping
negatives to zero — hence non-negative; the clamp-then-ceiling map sends
`2.1` to `3`, exactly `2.0` to `2`, and any negative raw value to `0`. -/
theorem knn_predict_c1 (sqrtQ : ℚ → ℚ) (hsq : ∀ x, 0 ≤ x → 0 ≤ sqrtQ x)
    (q : Incident) (rows : List Incident) (k mp : ℤ) (hrows : rows ≠ []) :
    ∃ res : KnnResult, knn_predict sqrtQ q rows k mp = Option.some res ∧
      (res.k_used : ℤ) = min (max 1 k) (rows.length : ℤ) ∧
      res.pred_engines = ceilInt (clamp_nonneg (knnWeightedAvg sqrtQ q rows k).1) ∧
      res.pred_ambulances = ceilInt (clamp_nonneg (knnWeightedAvg sqrtQ q rows k).2) ∧
      0 ≤ res.pred_engines ∧ 0 ≤ res.pred_ambulances ∧
      ceilInt (clamp_nonneg (21 / 10)) = 3 ∧ ceilInt (clamp_nonneg 2) = 2 ∧
      (∀ x : ℚ, x < 0 → ceilInt (clamp_nonneg x) = 0) := by
  have hraw : knnRawPred sqrtQ q rows k = knnWeightedAvg sqrtQ q rows k := by
    unfold knnRawPred
    rw [if_neg (not_le.2 (knnWeights_sum_pos sqrtQ hsq q rows k hrows))]
  have hclamp_nonneg : ∀ y : ℚ, 0 ≤ ceilInt (clamp_nonneg y) := by
    intro y
    unfold ceilInt clamp_nonneg
    split
    · exact Int.ceil_nonneg (by linarith)
    · simp
  refine ⟨{ pred_engines := ceilInt (clamp_nonneg (knnRawPred sqrtQ q rows k).1)
            pred_ambulances := ceilInt (clamp_nonneg (knnRawPred sqrtQ q rows k).2)
            query_used := knnQueryUsed q
            similar := knnSimilar sqrtQ q rows k
            k_used := (knnIdx sqrtQ q rows k).length },
    ?_, ?_, ?_, ?_, ?_, ?_, ?_, ?_, ?_⟩
  · rw [knn_predict, if_neg]
    rw [List.isEmpty_iff]
    exact hrows
  · show (((knnIdx sqrtQ q rows k).length : ℕ) : ℤ) = _
    rw [knnIdx_length]
    have hk : ((kClamp k : ℕ) : ℤ) = max 1 k := by
      unfold kClamp
      have : (0 : ℤ) ≤ max 1 k := le_trans zero_le_one (le_max_left _ _)
      omega
    rw [Nat.cast_min, hk]
  · show ceilInt (clamp_nonneg (knnRawPred sqrtQ q rows k).1) = _
    rw [hraw]
  · show ceilInt (clamp_nonneg (knnRawPred sqrtQ q rows k).2) = _
    rw [hraw]
  · exact hclamp_nonneg _
  · exact hclamp_nonneg _
  · rw [ceilInt, clamp_nonneg, if_pos (by norm_num), Int.ceil_eq_iff] <;> norm_num
  · rw [ceilInt, clamp_nonneg, if_pos (by norm_num), Int.ceil_eq_iff] <;> norm_num
  · intro x hx
    rw [ceilInt, clamp_nonneg, if_neg (by linarith), Int.ceil_zero]

/-- Witness for C1 at a concrete one-row dataset, `k = 1`. -/
theorem knn_predict_c1_witness :
    ∃ res : KnnResult, knn_predict id emptyInc [emptyInc] 1 50 = Option.some res ∧
      (res.k_used : ℤ) = min (max 1 1) (([emptyInc] : List Incident).length : ℤ) ∧
      res.pred_engines = ceilInt (clamp_nonneg (knnWeightedAvg id emptyInc [emptyInc] 1).1) ∧
      res.pred_ambulances = ceilInt (clamp_nonneg (knnWeightedAvg id emptyInc [emptyInc] 1).2) ∧
      0 ≤ res.pred_engines ∧ 0 ≤ res.pred_ambulances ∧
      ceilInt (clamp_nonneg (21 / 10)) = 3 ∧ ceilInt (clamp_nonneg 2) = 2 ∧
      (∀ x : ℚ, x < 0 → ceilInt (clamp_nonneg x) = 0) :=
  knn_predict_c1 id (fun x h => h) emptyInc [emptyInc] 1 50 (by simp)

/-- C2 (code-bug evidence): the source selects neighbors with
`np.argsort(dists)` using the default `kind='quicksort'`, which NumPy
documents as unstable, so only `ArgsortSpec` — an ascending-by-distance
permutation — is guaranteed; the tie order among equal distances is
unspecified.  At the concrete failing input of two identical historical
rows (both at distance 0 from the query), the output `[1, 0]` satisfies
everything NumPy guarantees, yet ranks the later row 1 strictly before
the earlier row 0, and taking the first `k = 1` of it selects the later
row and not the earlier one — contradicting the claimed stable
tie-breaking.  The file's executable `argsort` (which does break ties
by original index) is merely one admissible refinement of the same
contract, so the claimed property is consistent with, but not implied
by, the program. -/
theorem knn_argsort_tie_break_not_guaranteed :
    (knnDists id emptyInc [emptyInc, emptyInc]).getD 0 0
        = (knnDists id emptyInc [emptyInc, emptyInc]).getD 1 0 ∧
    ArgsortSpec (knnDists id emptyInc [emptyInc, emptyInc]) [1, 0] ∧
    ArgsortSpec (knnDists id emptyInc [emptyInc, emptyInc])
      (argsort (knnDists id emptyInc [emptyInc, emptyInc])) ∧
    ¬((List.indexOf 0 [1, 0] : ℕ) < List.indexOf 1 [1, 0]) ∧
    (1 : ℕ) ∈ ([1, 0] : List ℕ).take 1 ∧ (0 : ℕ) ∉ ([1, 0] : List ℕ).take 1 := by
  refine ⟨rfl, ⟨?_, ?_⟩, argsort_meets_spec _, by decide, by decide, by decide⟩
  · exact List.isPerm_iff.mp (by decide)
  · refine List.sorted_cons.mpr ⟨?_, List.sorted_singleton 0⟩
    intro b hb
    rcases List.mem_singleton.1 hb with rfl
    exact le_refl _
